import Mathlib

/-!
Verification of the flopen crate (src/lib.rs): a race-free "open and
lock" primitive after the BSD flopen(3) function.

Shallow embedding.  One invocation of the core retry loop interacts with
the operating system only through four calls per iteration, made in
program order: `options.open(&path)` (line 63), `flock(fd, lock_mode)`
(line 64), `metadata(&path)` taken after the lock (line 65), and
`file.metadata()` (line 66).  We model the OS side of one invocation as
a list of `Attempt` records, one per iteration, each holding the
outcomes the OS produced for those four calls in that iteration; the
loop consumes the list in order.  The loop itself is a structural
recursion over that list returning `none` when the supplied trace is
exhausted while the code would still be retrying, and `some r` when the
code returns `r`.
-/

namespace Flopen

/-- Error kinds of std::io::Error relevant to this crate. -/
inductive IoErrorKind
  | NotFound
  | PermissionDenied
  | WouldBlock
  | Interrupted
  | Other
  deriving DecidableEq, Repr

/-- An OS-level I/O error (std::io::Error), identified by its kind. -/
structure IoError where
  kind : IoErrorKind
  deriving DecidableEq, Repr

/-- An owned open file handle (std::fs::File), identified by its raw
file descriptor. -/
structure File where
  fd : Nat
  deriving DecidableEq, Repr

/-- The (device id, inode number) part of std::fs::Metadata exposed by
MetadataExt; the only fields the crate reads. -/
structure Metadata where
  dev : Nat
  ino : Nat
  deriving DecidableEq, Repr

/-- std::fs::OpenOptions: the caller-supplied open configuration.  The
algorithm never inspects the flags; they are passed through unchanged to
every open call, whose outcome the environment records per attempt. -/
structure OpenOptions where
  read : Bool
  write : Bool
  append : Bool
  truncate : Bool
  create : Bool
  create_new : Bool
  mode : Nat
  deriving DecidableEq, Repr

/-- A filesystem path, as supplied by the caller. -/
structure OsPath where
  s : String
  deriving DecidableEq, Repr

/-- The nix::fcntl::FlockArg values used by the crate: blocking
exclusive (LOCK_EX) and non-blocking exclusive (LOCK_EX | LOCK_NB). -/
inductive FlockArg
  | LockExclusive
  | LockExclusiveNonblock
  deriving DecidableEq, Repr

instance {ε α : Type} [DecidableEq ε] [DecidableEq α] : DecidableEq (Except ε α) :=
  fun x y =>
    match x, y with
    | Except.error a, Except.error b =>
      if h : a = b then isTrue (by rw [h])
      else isFalse (fun hc => h (Except.error.inj hc))
    | Except.error _, Except.ok _ => isFalse (fun hc => Except.noConfusion hc)
    | Except.ok _, Except.error _ => isFalse (fun hc => Except.noConfusion hc)
    | Except.ok a, Except.ok b =>
      if h : a = b then isTrue (by rw [h])
      else isFalse (fun hc => h (Except.ok.inj hc))

/-- Environment record of one iteration of the retry loop: the outcomes,
in program order, of the four OS calls the loop body makes —
`options.open(&path)` (line 63), `flock(file.as_raw_fd(), lock_mode)`
(line 64), `metadata(&path)` performed after the lock was acquired
(line 65), and `file.metadata()` on the held descriptor (line 66). -/
structure Attempt where
  openResult : Except IoError File
  flockResult : Except IoError Unit
  pathMetadata : Except IoError Metadata
  fileMetadata : Except IoError Metadata
  deriving DecidableEq, Repr

/-- The free function `open_and_lock` of src/lib.rs (lines 57-77),
the shared retry loop.  Line by line: `options.open(&path)?` surfaces an
open error; `flock(file.as_raw_fd(), lock_mode)?` surfaces a lock error;
`if let Ok(metadata_at_path) = metadata(&path)` retries (`continue`) on
a failed path stat; `file.metadata()?` surfaces a descriptor-stat error;
a (dev, ino) mismatch retries (`continue`); otherwise `return Ok(file)`.
`none` means the trace ran out while the loop was still retrying. -/
def open_and_lock (options : OpenOptions) (path : OsPath) (lock_mode : FlockArg) :
    List Attempt → Option (Except IoError File)
  | [] => none
  | a :: rest =>
    match a.openResult with
    | Except.error e => some (Except.error e)
    | Except.ok file =>
      match a.flockResult with
      | Except.error e => some (Except.error e)
      | Except.ok _ =>
        match a.pathMetadata with
        | Except.ok metadata_at_path =>
          match a.fileMetadata with
          | Except.error e => some (Except.error e)
          | Except.ok file_metadata =>
            if metadata_at_path.dev ≠ file_metadata.dev
                ∨ metadata_at_path.ino ≠ file_metadata.ino then
              open_and_lock options path lock_mode rest
            else
              some (Except.ok file)
        | Except.error _ => open_and_lock options path lock_mode rest

/-- Method `open_and_lock` of `impl OpenAndLock for OpenOptions`
(lines 80-82): the shared loop with the blocking exclusive mode. -/
def OpenOptions.open_and_lock (options : OpenOptions) (path : OsPath)
    (env : List Attempt) : Option (Except IoError File) :=
  Flopen.open_and_lock options path FlockArg.LockExclusive env

/-- Method `try_open_and_lock` of `impl OpenAndLock for OpenOptions`
(lines 84-86): the shared loop with the non-blocking exclusive mode. -/
def OpenOptions.try_open_and_lock (options : OpenOptions) (path : OsPath)
    (env : List Attempt) : Option (Except IoError File) :=
  Flopen.open_and_lock options path FlockArg.LockExclusiveNonblock env

/-- An attempt passed the post-lock identity check: both stats succeeded
and the (dev, ino) pairs agree (the negation of the condition on
lines 68-69). -/
def identityMatch (a : Attempt) : Bool :=
  match a.pathMetadata, a.fileMetadata with
  | Except.ok metadata_at_path, Except.ok file_metadata =>
      metadata_at_path.dev == file_metadata.dev
        && metadata_at_path.ino == file_metadata.ino
  | _, _ => false

/-- The loop of lines 62-77 again, instrumented with the Rust drop
semantics made explicit: alongside the result, it returns the list of
`File` handles the function itself closed (dropped), in the order they
were dropped.  In the source a handle is dropped when `file` goes out of
scope: at the `?` on line 64 (flock failed), at the `continue` of the
failed path stat (line 74), at the `?` on line 66 (descriptor stat
failed), and at the `continue` of the identity mismatch (line 70).  A
dropped handle is prepended before the recursive call, reflecting that
the drop happens before the next attempt begins.  The returned handle of
a success, and the error of any return, carry no dropped handle. -/
def open_and_lock_traced (options : OpenOptions) (path : OsPath) (lock_mode : FlockArg) :
    List Attempt → Option (Except IoError File) × List File
  | [] => (none, [])
  | a :: rest =>
    match a.openResult with
    | Except.error e => (some (Except.error e), [])
    | Except.ok file =>
      match a.flockResult with
      | Except.error e => (some (Except.error e), [file])
      | Except.ok _ =>
        match a.pathMetadata with
        | Except.ok metadata_at_path =>
          match a.fileMetadata with
          | Except.error e => (some (Except.error e), [file])
          | Except.ok file_metadata =>
            if metadata_at_path.dev ≠ file_metadata.dev
                ∨ metadata_at_path.ino ≠ file_metadata.ino then
              ((open_and_lock_traced options path lock_mode rest).1,
               file :: (open_and_lock_traced options path lock_mode rest).2)
            else
              (some (Except.ok file), [])
        | Except.error _ =>
          ((open_and_lock_traced options path lock_mode rest).1,
           file :: (open_and_lock_traced options path lock_mode rest).2)

/-- The handles successfully opened by the run: for every attempt the
loop actually consumes, the file produced by a successful
`options.open(&path)` on that attempt. -/
def openedDuring : List Attempt → List File
  | [] => []
  | a :: rest =>
    match a.openResult with
    | Except.error _ => []
    | Except.ok file =>
      match a.flockResult with
      | Except.error _ => [file]
      | Except.ok _ =>
        match a.pathMetadata with
        | Except.ok metadata_at_path =>
          match a.fileMetadata with
          | Except.error _ => [file]
          | Except.ok file_metadata =>
            if metadata_at_path.dev ≠ file_metadata.dev
                ∨ metadata_at_path.ino ≠ file_metadata.ino then
              file :: openedDuring rest
            else
              [file]
        | Except.error _ => file :: openedDuring rest

/-- The handle, if any, that a result hands to the caller. -/
def retFiles : Option (Except IoError File) → List File
  | some (Except.ok file) => [file]
  | _ => []

/-- A sample open configuration, read/write/create, as in the crate's
own test. -/
def testOptions : OpenOptions := ⟨true, true, false, false, true, false, 0⟩

/-- A sample open configuration without the create flag. -/
def testOptionsNoCreate : OpenOptions := ⟨true, true, false, false, false, false, 0⟩

/-- A sample path, as in the crate's own test. -/
def testPath : OsPath := ⟨"foo.lock"⟩

example :
    open_and_lock ⟨true, true, false, false, true, false, 0⟩ ⟨"/tmp/x.lock"⟩
      FlockArg.LockExclusive
      [⟨Except.ok ⟨3⟩, Except.ok (), Except.ok ⟨1, 2⟩, Except.ok ⟨1, 2⟩⟩]
    = some (Except.ok ⟨3⟩) := by decide

example :
    open_and_lock_traced ⟨true, true, false, false, true, false, 0⟩ ⟨"/tmp/x.lock"⟩
      FlockArg.LockExclusive
      [⟨Except.ok ⟨3⟩, Except.ok (), Except.ok ⟨1, 2⟩, Except.ok ⟨1, 7⟩⟩,
       ⟨Except.ok ⟨4⟩, Except.ok (), Except.ok ⟨1, 7⟩, Except.ok ⟨1, 7⟩⟩]
    = (some (Except.ok ⟨4⟩), [⟨3⟩]) := by decide

example :
    open_and_lock ⟨true, true, false, false, true, false, 0⟩ ⟨"/tmp/x.lock"⟩
      FlockArg.LockExclusive
      [⟨Except.ok ⟨3⟩, Except.ok (), Except.ok ⟨1, 2⟩, Except.ok ⟨1, 7⟩⟩,
       ⟨Except.ok ⟨4⟩, Except.ok (), Except.ok ⟨1, 7⟩, Except.ok ⟨1, 7⟩⟩]
    = some (Except.ok ⟨4⟩) := by decide

/-- Any success of the retry loop comes from a consumed attempt whose
open succeeded with the returned handle, whose flock succeeded, and
which passed the post-lock identity check. -/
theorem open_and_lock_ok_valid (options : OpenOptions) (path : OsPath)
    (lock_mode : FlockArg) (env : List Attempt) (f : File)
    (h : open_and_lock options path lock_mode env = some (Except.ok f)) :
    ∃ a ∈ env, a.openResult = Except.ok f ∧ a.flockResult = Except.ok ()
      ∧ identityMatch a = true := by
  induction env with
  | nil => simp [open_and_lock] at h
  | cons a rest ih =>
    rcases hopen : a.openResult with e | file
    · simp [open_and_lock, hopen] at h
    · rcases hflock : a.flockResult with e2 | u
      · simp [open_and_lock, hopen, hflock] at h
      · rcases hpath : a.pathMetadata with e3 | m
        · simp only [open_and_lock, hopen, hflock, hpath] at h
          obtain ⟨b, hb, hprops⟩ := ih h
          exact ⟨b, List.mem_cons_of_mem a hb, hprops⟩
        · rcases hfile : a.fileMetadata with e4 | fm
          · simp [open_and_lock, hopen, hflock, hpath, hfile] at h
          · simp only [open_and_lock, hopen, hflock, hpath, hfile] at h
            split at h
            · obtain ⟨b, hb, hprops⟩ := ih h
              exact ⟨b, List.mem_cons_of_mem a hb, hprops⟩
            · rename_i hcond
              have hf : file = f := by simpa using h
              push_neg at hcond
              refine ⟨a, List.mem_cons_self a rest, ?_, ?_, ?_⟩
              · rw [hopen, hf]
              · exact hflock
              · simp [identityMatch, hpath, hfile, hcond.1, hcond.2]

/-- Any error of the retry loop comes from a consumed attempt, out of
its open call, its flock call, or its descriptor stat. -/
theorem open_and_lock_error_source (options : OpenOptions) (path : OsPath)
    (lock_mode : FlockArg) (env : List Attempt) (e : IoError)
    (h : open_and_lock options path lock_mode env = some (Except.error e)) :
    ∃ a ∈ env, a.openResult = Except.error e
      ∨ a.flockResult = Except.error e
      ∨ a.fileMetadata = Except.error e := by
  induction env with
  | nil => simp [open_and_lock] at h
  | cons a rest ih =>
    rcases hopen : a.openResult with e2 | file
    · have he : e2 = e := by simpa [open_and_lock, hopen] using h
      exact ⟨a, List.mem_cons_self a rest, Or.inl (by rw [hopen, he])⟩
    · rcases hflock : a.flockResult with e2 | u
      · have he : e2 = e := by simpa [open_and_lock, hopen, hflock] using h
        exact ⟨a, List.mem_cons_self a rest, Or.inr (Or.inl (by rw [hflock, he]))⟩
      · rcases hpath : a.pathMetadata with e3 | m
        · simp only [open_and_lock, hopen, hflock, hpath] at h
          obtain ⟨b, hb, hprops⟩ := ih h
          exact ⟨b, List.mem_cons_of_mem a hb, hprops⟩
        · rcases hfile : a.fileMetadata with e4 | fm
          · have he : e4 = e := by
              simpa [open_and_lock, hopen, hflock, hpath, hfile] using h
            exact ⟨a, List.mem_cons_self a rest,
              Or.inr (Or.inr (by rw [hfile, he]))⟩
          · simp only [open_and_lock, hopen, hflock, hpath, hfile] at h
            split at h
            · obtain ⟨b, hb, hprops⟩ := ih h
              exact ⟨b, List.mem_cons_of_mem a hb, hprops⟩
            · simp at h

/-- Claim C10: no descriptor from a failed attempt is leaked across
retries or to the caller.  The drop-instrumented loop computes the same
result as the plain loop, and its dropped handles (each dropped before
the next attempt begins, as the list order records) together with the
at-most-one handle handed to the caller account exactly for every handle
the run successfully opened. -/
theorem c10_no_descriptor_leak (options : OpenOptions) (path : OsPath)
    (lock_mode : FlockArg) (env : List Attempt) :
    (open_and_lock_traced options path lock_mode env).1
        = open_and_lock options path lock_mode env
      ∧ (open_and_lock_traced options path lock_mode env).2
          ++ retFiles (open_and_lock_traced options path lock_mode env).1
        = openedDuring env := by
  induction env with
  | nil => simp [open_and_lock_traced, open_and_lock, openedDuring, retFiles]
  | cons a rest ih =>
    rcases hopen : a.openResult with e | file
    · simp [open_and_lock_traced, open_and_lock, openedDuring, retFiles, hopen]
    · rcases hflock : a.flockResult with e2 | u
      · simp [open_and_lock_traced, open_and_lock, openedDuring, retFiles,
          hopen, hflock]
      · rcases hpath : a.pathMetadata with e3 | m
        · simp only [open_and_lock_traced, open_and_lock, openedDuring,
            hopen, hflock, hpath]
          exact ⟨ih.1, by simp [ih.2]⟩
        · rcases hfile : a.fileMetadata with e4 | fm
          · simp [open_and_lock_traced, open_and_lock, openedDuring, retFiles,
              hopen, hflock, hpath, hfile]
          · simp only [open_and_lock_traced, open_and_lock, openedDuring,
              hopen, hflock, hpath, hfile]
            split
            · exact ⟨ih.1, by simp [ih.2]⟩
            · simp [retFiles]

/-- Claim C1: every invocation of open_and_lock or try_open_and_lock
that returns Ok(file) got the handle from an attempt in which the handle
was successfully locked exclusively before return and its (device id,
inode number) identity equals the identity obtained by the stat of the
path performed after the lock was acquired; no handle failing this check
is ever returned. -/
theorem c1_returned_handle_locked_and_verified
    (options : OpenOptions) (path : OsPath) (env : List Attempt) (f : File)
    (h : OpenOptions.open_and_lock options path env = some (Except.ok f)
      ∨ OpenOptions.try_open_and_lock options path env = some (Except.ok f)) :
    ∃ a ∈ env, a.openResult = Except.ok f ∧ a.flockResult = Except.ok ()
      ∧ identityMatch a = true := by
  rcases h with h | h
  · exact open_and_lock_ok_valid options path FlockArg.LockExclusive env f h
  · exact open_and_lock_ok_valid options path FlockArg.LockExclusiveNonblock env f h

theorem c1_witness :
    ∃ a ∈ [(⟨Except.ok ⟨3⟩, Except.ok (), Except.ok ⟨1, 2⟩,
        Except.ok ⟨1, 2⟩⟩ : Attempt)],
      a.openResult = Except.ok ⟨3⟩ ∧ a.flockResult = Except.ok ()
        ∧ identityMatch a = true :=
  c1_returned_handle_locked_and_verified testOptions testPath
    [⟨Except.ok ⟨3⟩, Except.ok (), Except.ok ⟨1, 2⟩, Except.ok ⟨1, 2⟩⟩] ⟨3⟩
    (Or.inl (by decide))

/-- Claim C2: in non-blocking mode (try_open_and_lock), a would-block
failure of the lock call is propagated to the caller unchanged and
immediately — whatever attempts would have followed, the retry loop is
not re-entered after the would-block failure. -/
theorem c2_would_block_propagated_immediately
    (options : OpenOptions) (path : OsPath) (a : Attempt) (f : File)
    (e : IoError)
    (hopen : a.openResult = Except.ok f)
    (hflock : a.flockResult = Except.error e)
    (_hwb : e.kind = IoErrorKind.WouldBlock) :
    ∀ rest : List Attempt,
      OpenOptions.try_open_and_lock options path (a :: rest)
        = some (Except.error e) := by
  intro rest
  simp [OpenOptions.try_open_and_lock, open_and_lock, hopen, hflock]

theorem c2_witness :
    OpenOptions.try_open_and_lock testOptions testPath
        ((⟨Except.ok ⟨3⟩, Except.error ⟨IoErrorKind.WouldBlock⟩,
           Except.ok ⟨1, 2⟩, Except.ok ⟨1, 2⟩⟩ : Attempt) :: [])
      = some (Except.error ⟨IoErrorKind.WouldBlock⟩) :=
  c2_would_block_propagated_immediately testOptions testPath
    ⟨Except.ok ⟨3⟩, Except.error ⟨IoErrorKind.WouldBlock⟩,
     Except.ok ⟨1, 2⟩, Except.ok ⟨1, 2⟩⟩
    ⟨3⟩ ⟨IoErrorKind.WouldBlock⟩ (by decide) (by decide) (by decide) []

/-- Claim C3: in either mode, a failure of the open/create call is
surfaced to the caller immediately with that very error and the attempt
is never retried, whatever attempts would have followed; in particular a
nonexistent path without a create flag yields the not-found error the
open call produced. -/
theorem c3_open_error_surfaced_immediately
    (options : OpenOptions) (path : OsPath) (lock_mode : FlockArg)
    (a : Attempt) (e : IoError)
    (hopen : a.openResult = Except.error e) :
    ∀ rest : List Attempt,
      open_and_lock options path lock_mode (a :: rest)
        = some (Except.error e) := by
  intro rest
  simp [open_and_lock, hopen]

theorem c3_witness :
    open_and_lock testOptionsNoCreate testPath FlockArg.LockExclusive
        ((⟨Except.error ⟨IoErrorKind.NotFound⟩, Except.ok (),
           Except.ok ⟨1, 2⟩, Except.ok ⟨1, 2⟩⟩ : Attempt) :: [])
      = some (Except.error ⟨IoErrorKind.NotFound⟩) :=
  c3_open_error_surfaced_immediately testOptionsNoCreate testPath
    FlockArg.LockExclusive
    ⟨Except.error ⟨IoErrorKind.NotFound⟩, Except.ok (),
     Except.ok ⟨1, 2⟩, Except.ok ⟨1, 2⟩⟩
    ⟨IoErrorKind.NotFound⟩ (by decide) []

/-- Claim C4 counterexample: a run in which the open call and the lock
call of the only consumed attempt both succeed, yet the function returns
an error — the one produced by the stat of the held descriptor
(file.metadata()? on line 66).  This exhibits an exit of the loop that
is neither a validated success nor an error of the open call (step 1)
nor an error of the lock call (step 2), refuting the claim that no other
code path causes the function to return. -/
theorem c4_counterexample :
    open_and_lock testOptions testPath FlockArg.LockExclusive
        [⟨Except.ok ⟨3⟩, Except.ok (), Except.ok ⟨1, 2⟩,
          Except.error ⟨IoErrorKind.Other⟩⟩]
      = some (Except.error ⟨IoErrorKind.Other⟩)
    ∧ (⟨Except.ok ⟨3⟩, Except.ok (), Except.ok ⟨1, 2⟩,
          Except.error ⟨IoErrorKind.Other⟩⟩ : Attempt).openResult
        = Except.ok ⟨3⟩
    ∧ (⟨Except.ok ⟨3⟩, Except.ok (), Except.ok ⟨1, 2⟩,
          Except.error ⟨IoErrorKind.Other⟩⟩ : Attempt).flockResult
        = Except.ok () := by
  decide

/-- Claim C4 (amended): the retry loop has exactly three kinds of exit —
returning a successfully validated handle, or returning an I/O error
produced by the open call (step 1), the lock call (step 2), or the stat
of the held descriptor (file.metadata(), step 4); no other code path
causes the function to return. -/
theorem c4_loop_exits (options : OpenOptions) (path : OsPath)
    (lock_mode : FlockArg) (env : List Attempt) (r : Except IoError File)
    (h : open_and_lock options path lock_mode env = some r) :
    (∃ f, r = Except.ok f ∧ ∃ a ∈ env,
        a.openResult = Except.ok f ∧ a.flockResult = Except.ok ()
          ∧ identityMatch a = true)
    ∨ (∃ e, r = Except.error e ∧ ∃ a ∈ env,
        a.openResult = Except.error e ∨ a.flockResult = Except.error e
          ∨ a.fileMetadata = Except.error e) := by
  rcases r with e | f
  · exact Or.inr ⟨e, rfl,
      open_and_lock_error_source options path lock_mode env e h⟩
  · exact Or.inl ⟨f, rfl,
      open_and_lock_ok_valid options path lock_mode env f h⟩

theorem c4_witness :
    (∃ f, (Except.error ⟨IoErrorKind.Other⟩ : Except IoError File)
          = Except.ok f
        ∧ ∃ a ∈ [(⟨Except.ok ⟨3⟩, Except.ok (), Except.ok ⟨1, 2⟩,
            Except.error ⟨IoErrorKind.Other⟩⟩ : Attempt)],
          a.openResult = Except.ok f ∧ a.flockResult = Except.ok ()
            ∧ identityMatch a = true)
    ∨ (∃ e, (Except.error ⟨IoErrorKind.Other⟩ : Except IoError File)
          = Except.error e
        ∧ ∃ a ∈ [(⟨Except.ok ⟨3⟩, Except.ok (), Except.ok ⟨1, 2⟩,
            Except.error ⟨IoErrorKind.Other⟩⟩ : Attempt)],
          a.openResult = Except.error e ∨ a.flockResult = Except.error e
            ∨ a.fileMetadata = Except.error e) :=
  c4_loop_exits testOptions testPath FlockArg.LockExclusive
    [⟨Except.ok ⟨3⟩, Except.ok (), Except.ok ⟨1, 2⟩,
      Except.error ⟨IoErrorKind.Other⟩⟩]
    (Except.error ⟨IoErrorKind.Other⟩) (by decide)

/-- Claim C5: when the post-lock stat of the path succeeds but its
(dev, ino) pair differs from the held descriptor's pair in either
component, the current handle is discarded and the loop restarts from
the open step on the remaining attempts; any handle the call then
returns was opened, locked and validated by one of those later
attempts, so the mismatching handle of this attempt is never returned
as such. -/
theorem c5_mismatch_discards_and_restarts
    (options : OpenOptions) (path : OsPath) (lock_mode : FlockArg)
    (a : Attempt) (f : File) (m fm : Metadata)
    (hopen : a.openResult = Except.ok f)
    (hflock : a.flockResult = Except.ok ())
    (hpath : a.pathMetadata = Except.ok m)
    (hfile : a.fileMetadata = Except.ok fm)
    (hmm : m.dev ≠ fm.dev ∨ m.ino ≠ fm.ino) :
    ∀ rest : List Attempt,
      open_and_lock options path lock_mode (a :: rest)
          = open_and_lock options path lock_mode rest
        ∧ ∀ g : File,
            open_and_lock options path lock_mode (a :: rest)
              = some (Except.ok g) →
            ∃ b ∈ rest, b.openResult = Except.ok g
              ∧ b.flockResult = Except.ok () ∧ identityMatch b = true := by
  intro rest
  have hstep : open_and_lock options path lock_mode (a :: rest)
      = open_and_lock options path lock_mode rest := by
    simp only [open_and_lock, hopen, hflock, hpath, hfile]
    rw [if_pos hmm]
  refine ⟨hstep, fun g hg => ?_⟩
  rw [hstep] at hg
  exact open_and_lock_ok_valid options path lock_mode rest g hg

theorem c5_witness :
    open_and_lock testOptions testPath FlockArg.LockExclusive
        ((⟨Except.ok ⟨3⟩, Except.ok (), Except.ok ⟨1, 7⟩,
           Except.ok ⟨1, 2⟩⟩ : Attempt) ::
         [(⟨Except.ok ⟨4⟩, Except.ok (), Except.ok ⟨1, 7⟩,
            Except.ok ⟨1, 7⟩⟩ : Attempt)])
        = open_and_lock testOptions testPath FlockArg.LockExclusive
          [(⟨Except.ok ⟨4⟩, Except.ok (), Except.ok ⟨1, 7⟩,
             Except.ok ⟨1, 7⟩⟩ : Attempt)]
      ∧ ∀ g : File,
          open_and_lock testOptions testPath FlockArg.LockExclusive
              ((⟨Except.ok ⟨3⟩, Except.ok (), Except.ok ⟨1, 7⟩,
                 Except.ok ⟨1, 2⟩⟩ : Attempt) ::
               [(⟨Except.ok ⟨4⟩, Except.ok (), Except.ok ⟨1, 7⟩,
                  Except.ok ⟨1, 7⟩⟩ : Attempt)])
            = some (Except.ok g) →
          ∃ b ∈ [(⟨Except.ok ⟨4⟩, Except.ok (), Except.ok ⟨1, 7⟩,
              Except.ok ⟨1, 7⟩⟩ : Attempt)],
            b.openResult = Except.ok g ∧ b.flockResult = Except.ok ()
              ∧ identityMatch b = true :=
  c5_mismatch_discards_and_restarts testOptions testPath
    FlockArg.LockExclusive
    ⟨Except.ok ⟨3⟩, Except.ok (), Except.ok ⟨1, 7⟩, Except.ok ⟨1, 2⟩⟩
    ⟨3⟩ ⟨1, 7⟩ ⟨1, 2⟩ (by decide) (by decide) (by decide) (by decide)
    (by decide)
    [⟨Except.ok ⟨4⟩, Except.ok (), Except.ok ⟨1, 7⟩, Except.ok ⟨1, 7⟩⟩]

/-- Claim C6: when the post-lock stat of the path fails, the failure is
treated as a transient race — the current handle is discarded and the
loop restarts from the open step on the remaining attempts; the stat
error is never surfaced to the caller, since any error the call then
returns originates in one of those later attempts. -/
theorem c6_stat_failure_retried_silently
    (options : OpenOptions) (path : OsPath) (lock_mode : FlockArg)
    (a : Attempt) (f : File) (err : IoError)
    (hopen : a.openResult = Except.ok f)
    (hflock : a.flockResult = Except.ok ())
    (hpath : a.pathMetadata = Except.error err) :
    ∀ rest : List Attempt,
      open_and_lock options path lock_mode (a :: rest)
          = open_and_lock options path lock_mode rest
        ∧ ∀ e2 : IoError,
            open_and_lock options path lock_mode (a :: rest)
              = some (Except.error e2) →
            ∃ b ∈ rest, b.openResult = Except.error e2
              ∨ b.flockResult = Except.error e2
              ∨ b.fileMetadata = Except.error e2 := by
  intro rest
  have hstep : open_and_lock options path lock_mode (a :: rest)
      = open_and_lock options path lock_mode rest := by
    simp [open_and_lock, hopen, hflock, hpath]
  refine ⟨hstep, fun e2 he2 => ?_⟩
  rw [hstep] at he2
  exact open_and_lock_error_source options path lock_mode rest e2 he2

theorem c6_witness :
    open_and_lock testOptions testPath FlockArg.LockExclusive
        ((⟨Except.ok ⟨3⟩, Except.ok (),
           Except.error ⟨IoErrorKind.NotFound⟩, Except.ok ⟨1, 2⟩⟩ : Attempt)
         :: [])
        = open_and_lock testOptions testPath FlockArg.LockExclusive []
      ∧ ∀ e2 : IoError,
          open_and_lock testOptions testPath FlockArg.LockExclusive
              ((⟨Except.ok ⟨3⟩, Except.ok (),
                 Except.error ⟨IoErrorKind.NotFound⟩,
                 Except.ok ⟨1, 2⟩⟩ : Attempt) :: [])
            = some (Except.error e2) →
          ∃ b ∈ ([] : List Attempt), b.openResult = Except.error e2
            ∨ b.flockResult = Except.error e2
            ∨ b.fileMetadata = Except.error e2 :=
  c6_stat_failure_retried_silently testOptions testPath
    FlockArg.LockExclusive
    ⟨Except.ok ⟨3⟩, Except.ok (), Except.error ⟨IoErrorKind.NotFound⟩,
     Except.ok ⟨1, 2⟩⟩
    ⟨3⟩ ⟨IoErrorKind.NotFound⟩ (by decide) (by decide) (by decide) []

/-- Claim C7: when, after a successful lock and a successful stat of the
path, the stat of the held descriptor itself (file.metadata()) fails,
the error is surfaced to the caller immediately with no handle attached,
whatever attempts would have followed — it is not treated as a transient
race and retried. -/
theorem c7_descriptor_stat_error_surfaced
    (options : OpenOptions) (path : OsPath) (lock_mode : FlockArg)
    (a : Attempt) (f : File) (m : Metadata) (e : IoError)
    (hopen : a.openResult = Except.ok f)
    (hflock : a.flockResult = Except.ok ())
    (hpath : a.pathMetadata = Except.ok m)
    (hfile : a.fileMetadata = Except.error e) :
    ∀ rest : List Attempt,
      open_and_lock options path lock_mode (a :: rest)
        = some (Except.error e) := by
  intro rest
  simp [open_and_lock, hopen, hflock, hpath, hfile]

theorem c7_witness :
    open_and_lock testOptions testPath FlockArg.LockExclusive
        ((⟨Except.ok ⟨3⟩, Except.ok (), Except.ok ⟨1, 2⟩,
           Except.error ⟨IoErrorKind.Other⟩⟩ : Attempt) :: [])
      = some (Except.error ⟨IoErrorKind.Other⟩) :=
  c7_descriptor_stat_error_surfaced testOptions testPath
    FlockArg.LockExclusive
    ⟨Except.ok ⟨3⟩, Except.ok (), Except.ok ⟨1, 2⟩,
     Except.error ⟨IoErrorKind.Other⟩⟩
    ⟨3⟩ ⟨1, 2⟩ ⟨IoErrorKind.Other⟩
    (by decide) (by decide) (by decide) (by decide) []

/-- Claim C8: whichever variant is invoked and whatever the run, the
caller observes exactly one of two results — an Ok carrying a locked,
identity-verified handle produced by some consumed attempt, or an Err
carrying an error and no handle. -/
theorem c8_caller_sees_ok_xor_error
    (options : OpenOptions) (path : OsPath) (env : List Attempt)
    (r : Except IoError File)
    (h : OpenOptions.open_and_lock options path env = some r
      ∨ OpenOptions.try_open_and_lock options path env = some r) :
    (∃ f, r = Except.ok f ∧ ∃ a ∈ env, a.openResult = Except.ok f
        ∧ a.flockResult = Except.ok () ∧ identityMatch a = true)
      ∨ ∃ e, r = Except.error e := by
  rcases r with e | f
  · exact Or.inr ⟨e, rfl⟩
  · refine Or.inl ⟨f, rfl, ?_⟩
    rcases h with h | h
    · exact open_and_lock_ok_valid options path FlockArg.LockExclusive env f h
    · exact open_and_lock_ok_valid options path FlockArg.LockExclusiveNonblock
        env f h

theorem c8_witness :
    (∃ f, (Except.ok ⟨3⟩ : Except IoError File) = Except.ok f
        ∧ ∃ a ∈ [(⟨Except.ok ⟨3⟩, Except.ok (), Except.ok ⟨1, 2⟩,
            Except.ok ⟨1, 2⟩⟩ : Attempt)],
          a.openResult = Except.ok f ∧ a.flockResult = Except.ok ()
            ∧ identityMatch a = true)
      ∨ ∃ e, (Except.ok ⟨3⟩ : Except IoError File) = Except.error e :=
  c8_caller_sees_ok_xor_error testOptions testPath
    [⟨Except.ok ⟨3⟩, Except.ok (), Except.ok ⟨1, 2⟩, Except.ok ⟨1, 2⟩⟩]
    (Except.ok ⟨3⟩) (Or.inr (by decide))

/-- Claim C9: the blocking and non-blocking variants execute the same
algorithm and differ only in the lock-mode argument passed to the lock
call — open_and_lock is the shared helper applied with the blocking
exclusive mode, and try_open_and_lock is the same helper applied with
the non-blocking exclusive mode. -/
theorem c9_variants_share_algorithm (options : OpenOptions) (path : OsPath)
    (env : List Attempt) :
    OpenOptions.open_and_lock options path env
        = open_and_lock options path FlockArg.LockExclusive env
      ∧ OpenOptions.try_open_and_lock options path env
        = open_and_lock options path FlockArg.LockExclusiveNonblock env :=
  ⟨rfl, rfl⟩

end Flopen
